import Mathlib

/-
  Verification of the printer-service job submission layer.

  Shallow embedding of:
  - printer/printer_windows.go : PrintRawESCPOSWindows, the Win32 native
    spooler session (OpenPrinterW / StartDocPrinterW / StartPagePrinter /
    WritePrinter / EndPagePrinter / EndDocPrinter / ClosePrinter), with the
    Go defer stack flattened into per-branch call traces;
  - the printer package (DetectPrinters, statusToString, PrintText,
    PrintEscPos and their per-platform helpers), with external process
    execution and file-system effects reified as an effect trace and their
    outcomes supplied by an environment record.
-/

namespace PrinterService

/- String literals of the source, named once. -/

def rawDataType : String := "RAW"

def escposDocName : String := "ESC/POS Raw Print Job"

def goosWindows : String := "windows"

def goosDarwin : String := "darwin"

def goosLinux : String := "linux"

def unsupportedPlatform : String := "unsupported platform"

def statusReady : String := "Ready"

def statusPrinting : String := "Printing"

def statusWarmup : String := "Warmup"

def statusUnknown : String := "Unknown"

def statusCode3 : String := "3"

def statusCodeOK : String := "OK"

def statusCode4 : String := "4"

def statusCode5 : String := "5"

def lpCmd : String := "lp"

def lpstatCmd : String := "lpstat"

def powershellCmd : String := "powershell"

def notepadCmd : String := "notepad"

def cmdExe : String := "cmd"

def dashD : String := "-d"

def dashO : String := "-o"

def rawFlag : String := "raw"

def slashP : String := "/p"

def slashC : String := "/c"

def slashB : String := "/b"

def copyArg : String := "copy"

def printTempTxt : String := "print_temp.txt"

def printEscposTempBin : String := "print_escpos_temp.bin"

def emptyStr : String := ""

def newlineStr : String := "\n"

def printFailedPrefix : String := "print failed: "

def escposPrintFailedPrefix : String := "escpos print failed: "

def outputSep : String := ", output: "

/- Native spool session (printer/printer_windows.go). -/

/-- One call made against the Win32 spooler interface, as a fake backend
would record it. -/
inductive NativeCall where
  | openPrinter (printerName : String)
  | startDocPrinter (docName : String) (dataType : String)
  | startPagePrinter
  | writePrinter (data : List Nat)
  | endPagePrinter
  | endDocPrinter
  | closePrinter
  deriving DecidableEq, Repr

/-- Injectable outcomes for each native call: whether the call reports
failure (ret == 0 in the Go code), and the byte count WritePrinter reports.
The end/close outcomes are included even though the Go code discards the
results of the deferred cleanup calls: quantifying over them states that the
returned error never depends on cleanup failures. -/
structure NativeBackend where
  openFails : Bool
  startDocFails : Bool
  startPageFails : Bool
  writeFails : Bool
  bytesWritten : Nat
  endPageFails : Bool
  endDocFails : Bool
  closeFails : Bool
  deriving DecidableEq, Repr

/-- The errors PrintRawESCPOSWindows can return, one per fmt.Errorf site. -/
inductive SpoolError where
  | noData
  | utf16Conversion
  | openFailed (printerName : String)
  | startDocFailed
  | startPageFailed
  | writeFailed
  | incompleteWrite (wrote : Nat) (total : Nat)
  deriving DecidableEq, Repr

/-- stringToUTF16Ptr fails exactly when the string holds a NUL byte
(syscall.UTF16FromString rejects interior NUL). -/
def utf16ConversionFails (s : String) : Bool :=
  s.toList.any fun c => c == Char.ofNat 0

/-- PrintRawESCPOSWindows, with the defer stack flattened: each early-return
branch lists the calls made so far followed by the deferred cleanup calls
registered up to that point, executed in LIFO order (endPagePrinter, then
endDocPrinter, then closePrinter). The result of each deferred cleanup call
is discarded by the Go code, so the trace and returned error do not consult
the endPageFails / endDocFails / closeFails fields. -/
def PrintRawESCPOSWindows (b : NativeBackend) (printerName : String)
    (data : List Nat) : Except SpoolError Unit × List NativeCall :=
  if data.length = 0 then
    (.error .noData, [])
  else if utf16ConversionFails printerName then
    (.error .utf16Conversion, [])
  else if b.openFails then
    (.error (.openFailed printerName), [.openPrinter printerName])
  else if b.startDocFails then
    (.error .startDocFailed,
     [.openPrinter printerName, .startDocPrinter escposDocName rawDataType,
      .closePrinter])
  else if b.startPageFails then
    (.error .startPageFailed,
     [.openPrinter printerName, .startDocPrinter escposDocName rawDataType,
      .startPagePrinter, .endDocPrinter, .closePrinter])
  else if b.writeFails then
    (.error .writeFailed,
     [.openPrinter printerName, .startDocPrinter escposDocName rawDataType,
      .startPagePrinter, .writePrinter data, .endPagePrinter, .endDocPrinter,
      .closePrinter])
  else if b.bytesWritten ≠ data.length then
    (.error (.incompleteWrite b.bytesWritten data.length),
     [.openPrinter printerName, .startDocPrinter escposDocName rawDataType,
      .startPagePrinter, .writePrinter data, .endPagePrinter, .endDocPrinter,
      .closePrinter])
  else
    (.ok (),
     [.openPrinter printerName, .startDocPrinter escposDocName rawDataType,
      .startPagePrinter, .writePrinter data, .endPagePrinter, .endDocPrinter,
      .closePrinter])

def isOpenCall : NativeCall → Bool
  | .openPrinter _ => true
  | _ => false

def isCloseCall : NativeCall → Bool
  | .closePrinter => true
  | _ => false

def isWriteCall : NativeCall → Bool
  | .writePrinter _ => true
  | _ => false

/- Queued submission and text printing (printer package). -/

/-- An observable side effect of the queued / text submission paths:
spawning an external process (with its argument vector and the payload
streamed to its standard input), or touching a temporary file. The native
constructor exists so that statements about which paths drive the native
spooler session are expressible; the queue-path functions never emit it. -/
inductive Effect where
  | execCommand (prog : String) (args : List String) (stdin : String)
  | writeFile (path : String) (contents : String)
  | removeFile (path : String)
  | native (c : NativeCall)
  deriving DecidableEq, Repr

/-- Outcomes of the external interactions a single print call performs:
the error of os.WriteFile for the temporary file, the error of running the
spawned command, and its combined stdout/stderr. -/
structure ExecEnv where
  writeFileErr : Option String
  runErr : Option String
  combinedOutput : String
  deriving DecidableEq, Repr

/-- printWindows: writes the content to print_temp.txt, prints it with
notepad /p, removes the file. The printerName argument is accepted but
never used by the Go code. -/
def printWindows (printerName : String) (content : String) (env : ExecEnv) :
    Except String Unit × List Effect :=
  match env.writeFileErr with
  | some e => (.error e, [Effect.writeFile printTempTxt content])
  | none =>
    let effs := [Effect.writeFile printTempTxt content,
                 Effect.execCommand notepadCmd [slashP, printTempTxt] emptyStr,
                 Effect.removeFile printTempTxt]
    match env.runErr with
    | some e => (.error e, effs)
    | none => (.ok (), effs)

/-- printUnix: lp -d printerName with the content on standard input; a
nonzero completion is wrapped with the combined output verbatim. -/
def printUnix (printerName : String) (content : String) (env : ExecEnv) :
    Except String Unit × List Effect :=
  let effs := [Effect.execCommand lpCmd [dashD, printerName] content]
  match env.runErr with
  | some e =>
    (.error (printFailedPrefix ++ e ++ outputSep ++ env.combinedOutput), effs)
  | none => (.ok (), effs)

/-- printEscPosWindows: writes the raw bytes to print_escpos_temp.bin and
copies them to the printer with cmd /c copy /b. -/
def printEscPosWindows (printerName : String) (escPosData : String)
    (env : ExecEnv) : Except String Unit × List Effect :=
  match env.writeFileErr with
  | some e => (.error e, [Effect.writeFile printEscposTempBin escPosData])
  | none =>
    let effs := [Effect.writeFile printEscposTempBin escPosData,
                 Effect.execCommand cmdExe
                   [slashC, copyArg, slashB, printEscposTempBin, printerName]
                   emptyStr,
                 Effect.removeFile printEscposTempBin]
    match env.runErr with
    | some e => (.error e, effs)
    | none => (.ok (), effs)

/-- printEscPosUnix: lp -d printerName -o raw with the bytes on standard
input. -/
def printEscPosUnix (printerName : String) (escPosData : String)
    (env : ExecEnv) : Except String Unit × List Effect :=
  let effs := [Effect.execCommand lpCmd [dashD, printerName, dashO, rawFlag]
                 escPosData]
  match env.runErr with
  | some e =>
    (.error (escposPrintFailedPrefix ++ e ++ outputSep ++ env.combinedOutput),
     effs)
  | none => (.ok (), effs)

/-- PrintText: dispatch on runtime.GOOS. -/
def PrintText (goos : String) (printerName : String) (content : String)
    (env : ExecEnv) : Except String Unit × List Effect :=
  if goos = goosWindows then printWindows printerName content env
  else if goos = goosDarwin ∨ goos = goosLinux then
    printUnix printerName content env
  else (.error unsupportedPlatform, [])

/-- PrintEscPos: dispatch on runtime.GOOS. -/
def PrintEscPos (goos : String) (printerName : String) (escPosData : String)
    (env : ExecEnv) : Except String Unit × List Effect :=
  if goos = goosWindows then printEscPosWindows printerName escPosData env
  else if goos = goosDarwin ∨ goos = goosLinux then
    printEscPosUnix printerName escPosData env
  else (.error unsupportedPlatform, [])

def isDirectoryQuery : Effect → Bool
  | .execCommand prog _ _ => prog == lpstatCmd || prog == powershellCmd
  | _ => false

def isNativeEffect : Effect → Bool
  | .native _ => true
  | _ => false

/- Printer detection (printer package). -/

structure Printer where
  name : String
  status : String
  isDefault : Bool
  deriving DecidableEq, Repr

/-- One record of the PowerShell Get-WmiObject JSON output. -/
structure PSRec where
  name : String
  isDefault : Bool
  status : String
  deriving DecidableEq, Repr

/-- Result of json.Unmarshal on the PowerShell output: an array, a single
object (the fallback parse), or neither. -/
inductive WinJson where
  | arr (ps : List PSRec)
  | single (p : PSRec)
  | malformed
  deriving DecidableEq, Repr

/-- Outcomes of the per-platform enumeration queries. -/
structure DetectEnv where
  winQuery : Except String WinJson
  lpstatMac : Except String String
  lpstatLinux : Except String String
  deriving Repr

/-- statusToString: the Go switch on the status code, as sequential string
equality tests. -/
def statusToString (status : String) : String :=
  if status = statusCode3 ∨ status = statusCodeOK then statusReady
  else if status = statusCode4 then statusPrinting
  else if status = statusCode5 then statusWarmup
  else statusUnknown

/-- detectWindowsPrinters on the parsed PowerShell output. A command error
is returned as is; a malformed JSON payload yields no printers and no
error, matching the Go fallthrough. -/
def detectWindowsPrinters (q : Except String WinJson) :
    Except String (List Printer) :=
  match q with
  | .error e => .error e
  | .ok (.arr ps) =>
    .ok (ps.map fun p => ⟨p.name, statusToString p.status, p.isDefault⟩)
  | .ok (.single p) => .ok [⟨p.name, statusToString p.status, p.isDefault⟩]
  | .ok .malformed => .ok []

/-- Split a character list at every character satisfying the predicate,
keeping empty pieces, as strings.Split does for a one-character separator. -/
def splitChars (p : Char → Bool) : List Char → List (List Char)
  | [] => [[]]
  | c :: cs =>
    if p c then [] :: splitChars p cs
    else
      match splitChars p cs with
      | [] => [[c]]
      | r :: rs => (c :: r) :: rs

/-- strings.Split(s, a newline): the lines of the output. -/
def splitLines (s : String) : List String :=
  (splitChars (fun c => c == Char.ofNat 10) s.toList).map fun cs => ⟨cs⟩

/-- strings.TrimSpace(line) == the empty string: the line is entirely
whitespace. -/
def isBlank (line : String) : Bool :=
  line.toList.all Char.isWhitespace

/-- strings.Fields: split on whitespace runs, dropping empty pieces. -/
def fields (s : String) : List String :=
  ((splitChars Char.isWhitespace s.toList).filter fun cs => ¬ cs.isEmpty).map
    fun cs => ⟨cs⟩

/-- detectMacPrinters on the lpstat -a output: one printer per non-blank
line, named by the first whitespace-separated field, status always Ready. -/
def detectMacPrinters (out : Except String String) :
    Except String (List Printer) :=
  match out with
  | .error e => .error e
  | .ok s =>
    .ok ((splitLines s).filterMap fun line =>
      if isBlank line then none
      else
        match fields line with
        | [] => none
        | printerName :: _ => some ⟨printerName, statusReady, false⟩)

/-- detectLinuxPrinters: textually identical to detectMacPrinters in the Go
source. -/
def detectLinuxPrinters (out : Except String String) :
    Except String (List Printer) :=
  match out with
  | .error e => .error e
  | .ok s =>
    .ok ((splitLines s).filterMap fun line =>
      if isBlank line then none
      else
        match fields line with
        | [] => none
        | printerName :: _ => some ⟨printerName, statusReady, false⟩)

/-- DetectPrinters: dispatch on runtime.GOOS; any other platform is the
unsupported-platform error. -/
def DetectPrinters (goos : String) (env : DetectEnv) :
    Except String (List Printer) :=
  if goos = goosWindows then detectWindowsPrinters env.winQuery
  else if goos = goosDarwin then detectMacPrinters env.lpstatMac
  else if goos = goosLinux then detectLinuxPrinters env.lpstatLinux
  else .error unsupportedPlatform

end PrinterService

namespace PrinterService

/- Concrete inputs used by witnesses. -/

def receiptPrinter : String := "Receipt Printer"

def escInitData : List Nat := [27, 64]

def bAllOk : NativeBackend := ⟨false, false, false, false, 2, false, false, false⟩

def bOpenFail : NativeBackend := ⟨true, false, false, false, 0, false, false, false⟩

def bPageFail : NativeBackend := ⟨false, false, true, false, 0, true, true, true⟩

def bShortWrite : NativeBackend := ⟨false, false, false, false, 1, true, true, true⟩

/-- Claim C1: once open succeeds, close is invoked exactly once on every
exit path; when open fails, close is never invoked; no double-close. -/
theorem native_open_close_balanced (b : NativeBackend) (printerName : String)
    (data : List Nat) :
    ((PrintRawESCPOSWindows b printerName data).2.countP isCloseCall ≤ 1) ∧
    (b.openFails = true →
      (PrintRawESCPOSWindows b printerName data).2.countP isCloseCall = 0) ∧
    (b.openFails = false →
      (PrintRawESCPOSWindows b printerName data).2.countP isOpenCall =
        (PrintRawESCPOSWindows b printerName data).2.countP isCloseCall) ∧
    (b.openFails = false →
      (PrintRawESCPOSWindows b printerName data).2.countP isOpenCall = 1 →
      (PrintRawESCPOSWindows b printerName data).2.countP isCloseCall = 1) := by
  unfold PrintRawESCPOSWindows
  split_ifs <;>
    simp_all [isOpenCall, isCloseCall, List.countP_cons, List.countP_nil]

/-- Witness for C1 at concrete inputs: an injected open failure yields zero
close calls, and a fully successful run balances open and close counts. -/
theorem native_open_close_balanced_witness :
    (PrintRawESCPOSWindows bOpenFail receiptPrinter escInitData).2.countP
        isCloseCall = 0 ∧
    (PrintRawESCPOSWindows bAllOk receiptPrinter escInitData).2.countP
        isOpenCall =
      (PrintRawESCPOSWindows bAllOk receiptPrinter escInitData).2.countP
        isCloseCall :=
  ⟨(native_open_close_balanced bOpenFail receiptPrinter escInitData).2.1 rfl,
   (native_open_close_balanced bAllOk receiptPrinter escInitData).2.2.1 rfl⟩

/-- Claim C2: a failure injected at beginPage after a successful
beginDocument still runs endDocument and then close, and the returned error
is the original BeginPage-stage failure; the cleanup outcome fields of the
backend are unconstrained, so cleanup failures never override it. -/
theorem native_beginPage_failure_unwinds (b : NativeBackend)
    (printerName : String) (data : List Nat) (hdata : data.length ≠ 0)
    (hname : utf16ConversionFails printerName = false)
    (hopen : b.openFails = false) (hdoc : b.startDocFails = false)
    (hpage : b.startPageFails = true) :
    PrintRawESCPOSWindows b printerName data =
      (.error .startPageFailed,
       [.openPrinter printerName, .startDocPrinter escposDocName rawDataType,
        .startPagePrinter, .endDocPrinter, .closePrinter]) := by
  unfold PrintRawESCPOSWindows
  simp [hdata, hname, hopen, hdoc, hpage]

/-- Witness for C2: the beginPage failure propagates unchanged even with
every cleanup call also failing. -/
theorem native_beginPage_failure_unwinds_witness :
    PrintRawESCPOSWindows bPageFail receiptPrinter escInitData =
      (.error .startPageFailed,
       [.openPrinter receiptPrinter,
        .startDocPrinter escposDocName rawDataType, .startPagePrinter,
        .endDocPrinter, .closePrinter]) :=
  native_beginPage_failure_unwinds bPageFail receiptPrinter escInitData
    (by decide) (by decide) rfl rfl rfl

/-- Claim C3: a write whose accepted byte count differs from the buffer
length yields the incomplete-write error even though WritePrinter reported
success, and endPage, endDocument, close still run in that order. -/
theorem native_incomplete_write_error (b : NativeBackend)
    (printerName : String) (data : List Nat) (hdata : data.length ≠ 0)
    (hname : utf16ConversionFails printerName = false)
    (hopen : b.openFails = false) (hdoc : b.startDocFails = false)
    (hpage : b.startPageFails = false) (hwrite : b.writeFails = false)
    (hcount : b.bytesWritten ≠ data.length) :
    PrintRawESCPOSWindows b printerName data =
      (.error (.incompleteWrite b.bytesWritten data.length),
       [.openPrinter printerName, .startDocPrinter escposDocName rawDataType,
        .startPagePrinter, .writePrinter data, .endPagePrinter,
        .endDocPrinter, .closePrinter]) := by
  unfold PrintRawESCPOSWindows
  simp [hdata, hname, hopen, hdoc, hpage, hwrite, hcount]

/-- Witness for C3: a two-byte buffer with only one byte accepted. -/
theorem native_incomplete_write_error_witness :
    PrintRawESCPOSWindows bShortWrite receiptPrinter escInitData =
      (.error (.incompleteWrite 1 2),
       [.openPrinter receiptPrinter,
        .startDocPrinter escposDocName rawDataType, .startPagePrinter,
        .writePrinter escInitData, .endPagePrinter, .endDocPrinter,
        .closePrinter]) :=
  native_incomplete_write_error bShortWrite receiptPrinter escInitData
    (by decide) (by decide) rfl rfl rfl rfl (by decide)

/-- Claim C9: an empty payload is rejected before any native call is made
(open is never invoked), and a write call only ever appears in a trace with
a non-empty buffer. -/
theorem empty_payload_rejected_before_open (b : NativeBackend)
    (printerName : String) (data : List Nat) :
    (PrintRawESCPOSWindows b printerName [] = (.error .noData, [])) ∧
    (NativeCall.writePrinter data ∈
        (PrintRawESCPOSWindows b printerName data).2 → data ≠ []) := by
  constructor
  · unfold PrintRawESCPOSWindows
    simp
  · intro hmem
    unfold PrintRawESCPOSWindows at hmem
    split_ifs at hmem <;> simp_all

/-- Witness for C9: the successful run on the two-byte payload contains the
write call, so the theorem yields that the payload is non-empty. -/
theorem empty_payload_rejected_before_open_witness :
    escInitData ≠ [] :=
  (empty_payload_rejected_before_open bAllOk receiptPrinter escInitData).2
    (by decide)

end PrinterService

namespace PrinterService

/-- The initialization sequence ESC @ as the string payload PrintEscPos
receives. -/
def escInitStr : String := String.mk [Char.ofNat 27, Char.ofNat 64]

/-- An environment in which the temporary-file write and the spawned
command both succeed. -/
def okEnv : ExecEnv := ⟨none, none, emptyStr⟩

/-- Counterexample to claim C4 as stated: a raw job submitted on Windows
through PrintEscPos succeeds while the native spool session observes zero
calls — the job is routed to the temp-file plus cmd /c copy /b workaround,
not to the open/beginDocument/.../close sequence. -/
theorem windows_raw_job_bypasses_native_session :
    (PrintEscPos goosWindows receiptPrinter escInitStr okEnv).1 = .ok () ∧
    (PrintEscPos goosWindows receiptPrinter escInitStr okEnv).2.countP
        isNativeEffect = 0 ∧
    (PrintEscPos goosWindows receiptPrinter escInitStr okEnv).2 =
      [Effect.writeFile printEscposTempBin escInitStr,
       Effect.execCommand cmdExe
         [slashC, copyArg, slashB, printEscposTempBin, receiptPrinter]
         emptyStr,
       Effect.removeFile printEscposTempBin] :=
  ⟨rfl, rfl, rfl⟩

/-- Claim C4 (amended): the native spool routine itself, on its success
path, performs exactly open, beginDocument with data type RAW, beginPage,
write of the payload, endPage, endDocument, close, with no other native
calls interleaved. -/
theorem native_session_success_sequence (b : NativeBackend)
    (printerName : String) (data : List Nat) (hdata : data.length ≠ 0)
    (hname : utf16ConversionFails printerName = false)
    (hopen : b.openFails = false) (hdoc : b.startDocFails = false)
    (hpage : b.startPageFails = false) (hwrite : b.writeFails = false)
    (hcount : b.bytesWritten = data.length) :
    PrintRawESCPOSWindows b printerName data =
      (.ok (),
       [.openPrinter printerName, .startDocPrinter escposDocName rawDataType,
        .startPagePrinter, .writePrinter data, .endPagePrinter,
        .endDocPrinter, .closePrinter]) := by
  unfold PrintRawESCPOSWindows
  simp [hdata, hname, hopen, hdoc, hpage, hwrite, hcount]

/-- Witness for the amended C4: the fully successful run on the two-byte
initialization payload. -/
theorem native_session_success_sequence_witness :
    PrintRawESCPOSWindows bAllOk receiptPrinter escInitData =
      (.ok (),
       [.openPrinter receiptPrinter,
        .startDocPrinter escposDocName rawDataType, .startPagePrinter,
        .writePrinter escInitData, .endPagePrinter, .endDocPrinter,
        .closePrinter]) :=
  native_session_success_sequence bAllOk receiptPrinter escInitData
    (by decide) (by decide) rfl rfl rfl rfl (by decide)

/-- Claim C10: the Windows text path never consults the printer name: for
any two names, the same effects are produced and the same result returned,
and the name never appears in the spawned command. -/
theorem windows_text_print_ignores_printer_name :
    (∀ name1 name2 content env,
      printWindows name1 content env = printWindows name2 content env) ∧
    (∀ name1 name2 content env,
      PrintText goosWindows name1 content env =
        PrintText goosWindows name2 content env) ∧
    (∀ printerName content,
      (printWindows printerName content okEnv).2 =
        [Effect.writeFile printTempTxt content,
         Effect.execCommand notepadCmd [slashP, printTempTxt] emptyStr,
         Effect.removeFile printTempTxt]) :=
  ⟨fun _ _ _ _ => rfl, fun _ _ _ _ => rfl, fun _ _ => rfl⟩

end PrinterService

namespace PrinterService

/- Dispatch lemmas for DetectPrinters, shared by the detection claims. -/

theorem DetectPrinters_windows (env : DetectEnv) :
    DetectPrinters goosWindows env = detectWindowsPrinters env.winQuery := by
  unfold DetectPrinters
  rw [if_pos rfl]

theorem DetectPrinters_darwin (env : DetectEnv) :
    DetectPrinters goosDarwin env = detectMacPrinters env.lpstatMac := by
  unfold DetectPrinters
  rw [if_neg (by decide), if_pos rfl]

theorem DetectPrinters_linux (env : DetectEnv) :
    DetectPrinters goosLinux env = detectLinuxPrinters env.lpstatLinux := by
  unfold DetectPrinters
  rw [if_neg (by decide), if_neg (by decide), if_pos rfl]

theorem statusToString_mem (s : String) :
    statusToString s ∈
      [statusReady, statusPrinting, statusWarmup, statusUnknown] := by
  unfold statusToString
  split_ifs <;> simp

theorem detectMacPrinters_status (out : Except String String)
    (ps : List Printer) (h : detectMacPrinters out = .ok ps) :
    ∀ p ∈ ps, p.status = statusReady := by
  cases out with
  | error e => simp [detectMacPrinters] at h
  | ok s =>
    simp only [detectMacPrinters, Except.ok.injEq] at h
    subst h
    intro p hp
    rcases List.mem_filterMap.mp hp with ⟨line, _, hf⟩
    split_ifs at hf
    rcases hm : fields line with _ | ⟨n, rest⟩ <;> rw [hm] at hf
    · simp at hf
    · simp only [Option.some.injEq] at hf
      rw [← hf]

theorem detectLinuxPrinters_status (out : Except String String)
    (ps : List Printer) (h : detectLinuxPrinters out = .ok ps) :
    ∀ p ∈ ps, p.status = statusReady :=
  detectMacPrinters_status out ps h

theorem detectWindowsPrinters_status (q : Except String WinJson)
    (ps : List Printer) (h : detectWindowsPrinters q = .ok ps) :
    ∀ p ∈ ps,
      p.status ∈ [statusReady, statusPrinting, statusWarmup, statusUnknown] := by
  cases q with
  | error e => simp [detectWindowsPrinters] at h
  | ok j =>
    cases j with
    | arr l =>
      simp only [detectWindowsPrinters, Except.ok.injEq] at h
      subst h
      intro p hp
      rcases List.mem_map.mp hp with ⟨r, _, hr⟩
      rw [← hr]
      exact statusToString_mem r.status
    | single r =>
      simp only [detectWindowsPrinters, Except.ok.injEq] at h
      subst h
      intro p hp
      rcases List.mem_singleton.mp hp with rfl
      exact statusToString_mem r.status
    | malformed =>
      simp only [detectWindowsPrinters, Except.ok.injEq] at h
      subst h
      intro p hp
      simp at hp

/-- Claim C5: the numeric-coded platform maps 3 and OK to Ready, 4 to
Printing, 5 to Warmup and anything else to Unknown; the platforms whose
query carries no status field always report Ready; every printer any
detection path returns has one of the four statuses. -/
theorem detect_status_normalization :
    (statusToString statusCode3 = statusReady ∧
     statusToString statusCodeOK = statusReady ∧
     statusToString statusCode4 = statusPrinting ∧
     statusToString statusCode5 = statusWarmup) ∧
    (∀ s, s ≠ statusCode3 → s ≠ statusCodeOK → s ≠ statusCode4 →
      s ≠ statusCode5 → statusToString s = statusUnknown) ∧
    (∀ out ps, detectMacPrinters out = .ok ps →
      ∀ p ∈ ps, p.status = statusReady) ∧
    (∀ out ps, detectLinuxPrinters out = .ok ps →
      ∀ p ∈ ps, p.status = statusReady) ∧
    (∀ goos env ps, DetectPrinters goos env = .ok ps →
      ∀ p ∈ ps,
        p.status ∈ [statusReady, statusPrinting, statusWarmup, statusUnknown]) := by
  refine ⟨by decide, ?_, detectMacPrinters_status, detectLinuxPrinters_status, ?_⟩
  · intro s h3 hOK h4 h5
    unfold statusToString
    rw [if_neg (by simp [h3, hOK]), if_neg h4, if_neg h5]
  · intro goos env ps h p hp
    unfold DetectPrinters at h
    split_ifs at h
    · exact detectWindowsPrinters_status env.winQuery ps h p hp
    · simp [detectMacPrinters_status env.lpstatMac ps h p hp]
    · simp [detectLinuxPrinters_status env.lpstatLinux ps h p hp]

/-- A sample lpstat -a output line and the printer record it parses to. -/
def sampleLpstatOut : String := "printer1 accepting requests"

def samplePrinter : Printer := ⟨"printer1", statusReady, false⟩

def sampleEnv : DetectEnv := ⟨.ok .malformed, .ok emptyStr, .ok sampleLpstatOut⟩

/-- Witness for C5: a status code outside the mapped set normalizes to
Unknown, and the printer parsed from a concrete lpstat output on Linux has
one of the four statuses. -/
theorem detect_status_normalization_witness :
    statusToString emptyStr = statusUnknown ∧
    samplePrinter.status ∈
      [statusReady, statusPrinting, statusWarmup, statusUnknown] :=
  ⟨detect_status_normalization.2.1 emptyStr (by decide) (by decide) (by decide)
     (by decide),
   detect_status_normalization.2.2.2.2 goosLinux sampleEnv [samplePrinter] rfl
     samplePrinter (List.mem_singleton.mpr rfl)⟩

/-- Claim C6: no strategy for the host platform yields the
unsupported-platform error; a failing enumeration query propagates its own
error; a succeeding query reporting zero printers yields the empty list and
no error. -/
theorem detect_error_paths :
    (∀ goos env, goos ≠ goosWindows → goos ≠ goosDarwin → goos ≠ goosLinux →
      DetectPrinters goos env = .error unsupportedPlatform) ∧
    (∀ env e, env.winQuery = .error e →
      DetectPrinters goosWindows env = .error e) ∧
    (∀ env e, env.lpstatMac = .error e →
      DetectPrinters goosDarwin env = .error e) ∧
    (∀ env e, env.lpstatLinux = .error e →
      DetectPrinters goosLinux env = .error e) ∧
    (∀ env, env.lpstatMac = .ok emptyStr →
      DetectPrinters goosDarwin env = .ok []) ∧
    (∀ env, env.lpstatLinux = .ok emptyStr →
      DetectPrinters goosLinux env = .ok []) ∧
    (∀ env ps, env.winQuery = .ok (.arr ps) →
      DetectPrinters goosWindows env = .ok
        (ps.map fun p => ⟨p.name, statusToString p.status, p.isDefault⟩)) := by
  refine ⟨?_, ?_, ?_, ?_, ?_, ?_, ?_⟩
  · intro goos env h1 h2 h3
    unfold DetectPrinters
    rw [if_neg h1, if_neg h2, if_neg h3]
  · intro env e h
    rw [DetectPrinters_windows, h]
    rfl
  · intro env e h
    rw [DetectPrinters_darwin, h]
    rfl
  · intro env e h
    rw [DetectPrinters_linux, h]
    rfl
  · intro env h
    rw [DetectPrinters_darwin, h]
    rfl
  · intro env h
    rw [DetectPrinters_linux, h]
    rfl
  · intro env ps h
    rw [DetectPrinters_windows, h]
    rfl

def goosPlan9 : String := "plan9"

def lpstatMissing : String := "exec: lpstat: executable file not found"

def errEnv : DetectEnv :=
  ⟨.error lpstatMissing, .error lpstatMissing, .error lpstatMissing⟩

def emptyEnv : DetectEnv := ⟨.ok (.arr []), .ok emptyStr, .ok emptyStr⟩

/-- Witness for C6: an unsupported platform, a failing Linux query, a
zero-printer Linux query and a zero-printer Windows query, all concrete. -/
theorem detect_error_paths_witness :
    DetectPrinters goosPlan9 errEnv = .error unsupportedPlatform ∧
    DetectPrinters goosLinux errEnv = .error lpstatMissing ∧
    DetectPrinters goosLinux emptyEnv = .ok [] ∧
    DetectPrinters goosWindows emptyEnv = .ok [] :=
  ⟨detect_error_paths.1 goosPlan9 errEnv (by decide) (by decide) (by decide),
   detect_error_paths.2.2.2.1 errEnv lpstatMissing rfl,
   detect_error_paths.2.2.2.2.2.1 emptyEnv rfl,
   detect_error_paths.2.2.2.2.2.2 emptyEnv [] rfl⟩

end PrinterService

namespace PrinterService

/-- Claim C7: no submission path ever spawns an enumeration query (lpstat
or the PowerShell printer listing) before or during a job — and with a
healthy queue, submission succeeds for an arbitrary printer name, so an
unknown name is never rejected early; any failure comes from the spawned
queue command itself. The native path returns only NativeCall traces and
cannot query the directory at all. -/
theorem submission_no_directory_lookup (goos printerName content escPosData : String)
    (env : ExecEnv) :
    ((PrintText goos printerName content env).2.countP isDirectoryQuery = 0) ∧
    ((PrintEscPos goos printerName escPosData env).2.countP isDirectoryQuery = 0) ∧
    (env.runErr = none → (printUnix printerName content env).1 = .ok ()) ∧
    (env.runErr = none →
      (printEscPosUnix printerName escPosData env).1 = .ok ()) := by
  obtain ⟨w, r, o⟩ := env
  refine ⟨?_, ?_, ?_, ?_⟩
  · unfold PrintText printWindows printUnix
    split_ifs <;> cases w <;> cases r <;>
      simp [isDirectoryQuery, List.countP_cons, notepadCmd, lpCmd, lpstatCmd,
        powershellCmd]
  · unfold PrintEscPos printEscPosWindows printEscPosUnix
    split_ifs <;> cases w <;> cases r <;>
      simp [isDirectoryQuery, List.countP_cons, cmdExe, lpCmd, lpstatCmd,
        powershellCmd]
  · intro h
    simp only at h
    subst h
    rfl
  · intro h
    simp only at h
    subst h
    rfl

/-- Witness for C7: a text job and a raw job for a printer name no
directory would list, both succeeding against a healthy queue with no
enumeration effect in either trace. -/
theorem submission_no_directory_lookup_witness :
    ((PrintText goosLinux receiptPrinter emptyStr okEnv).2.countP
        isDirectoryQuery = 0) ∧
    ((printUnix receiptPrinter emptyStr okEnv).1 = .ok ()) :=
  ⟨(submission_no_directory_lookup goosLinux receiptPrinter emptyStr escInitStr
      okEnv).1,
   (submission_no_directory_lookup goosLinux receiptPrinter emptyStr escInitStr
      okEnv).2.2.1 rfl⟩

/-- Claim C8: the raw queue path always passes the no-filter flag pair
-o raw to lp and the text queue path never passes any flag beyond
-d printer; both stream the payload to the standard input of the spawned
process. -/
theorem raw_flag_discipline (printerName content escPosData : String)
    (env : ExecEnv) :
    ((printEscPosUnix printerName escPosData env).2 =
      [Effect.execCommand lpCmd [dashD, printerName, dashO, rawFlag]
         escPosData]) ∧
    ((printUnix printerName content env).2 =
      [Effect.execCommand lpCmd [dashD, printerName] content]) := by
  obtain ⟨w, r, o⟩ := env
  cases r <;> exact ⟨rfl, rfl⟩

end PrinterService
